import Mathlib

/-!
Verification of the ArgusUI integration layer against its natural-language
specification.  The Python sources under `backend/` are shallowly embedded:
instants are modelled as whole seconds since the epoch (`Int`), byte strings
as `List Nat`, XML documents as a small rose tree, and the document database
as explicit record lists threaded through the functions that the source
mutates.  Each embedded definition carries the name of the Python function
or model it translates.
-/

namespace ArgusUI

/-! ## Scheduling engine (`amm_scheduler.py`, `amm_models.py`)

`TimingDefinition.schedule_type` in `amm_models.py` is the enum
`ScheduleType` with members ALWAYS / SPAN / DAILY / WEEKDAYS / INTERVAL. -/

inductive ScheduleType where
  | always
  | span
  | daily
  | weekdays
  | interval
  deriving DecidableEq, Repr

/-- `TimingDefinition` (`amm_models.py`): kind plus kind-specific bounds.
Instants (`start_date`, `end_date`) are seconds since the epoch; times of
day (`start_time`, `end_time`) are seconds after midnight; intervals are
the raw integer field values of the pydantic model. -/
structure TimingDefinition where
  schedule_type : ScheduleType
  start_date : Option Int := none
  end_date : Option Int := none
  start_time : Option Int := none
  end_time : Option Int := none
  weekdays : Option (List Nat) := none
  interval_minutes : Option Int := none
  interval_hours : Option Int := none
  interval_days : Option Int := none
  deriving DecidableEq, Repr

/-- `AMMConfiguration` (`amm_models.py`), restricted to the fields the
scheduler reads and writes. -/
structure AMMConfiguration where
  id : String
  last_execution : Option Int := none
  execution_count : Int := 0
  error_count : Int := 0
  last_error : Option String := none
  deriving DecidableEq, Repr

/-- `AMMExecution` (`amm_models.py` lines 259-279): the execution record.
`status` defaults to `"running"`, `completed_at` to absent. -/
structure AMMExecution where
  id : String
  amm_config_id : String
  started_at : Int
  completed_at : Option Int := none
  status : String := "running"
  generated_orders : List String := []
  error_message : Option String := none
  measurements_performed : Int := 0
  deriving DecidableEq, Repr

/-- The slice of the document store the scheduler touches for one
configuration: its `amm_executions` rows and the configuration row itself. -/
structure SchedState where
  executions : List AMMExecution
  config : AMMConfiguration
  deriving DecidableEq, Repr

/-- `current_time.time()`: seconds after midnight of an epoch instant. -/
def timeOfDay (t : Int) : Int := t % 86400

/-- `current_time.weekday()`: 0 = Monday.  1970-01-01 was a Thursday. -/
def weekdayOf (t : Int) : Int := (t / 86400 + 3) % 7

/-- The `interval_seconds` accumulation of
`AMMScheduler._check_timing_conditions` (lines 137-143): each field
contributes only when truthy (present and nonzero), scaled to seconds. -/
def intervalSeconds (td : TimingDefinition) : Int :=
  (match td.interval_minutes with
   | some m => if m = 0 then 0 else m * 60
   | none => 0)
  + (match td.interval_hours with
     | some h => if h = 0 then 0 else h * 3600
     | none => 0)
  + (match td.interval_days with
     | some d => if d = 0 then 0 else d * 86400
     | none => 0)

/-- `AMMScheduler._check_timing_conditions` (lines 110-149).  Every branch
whose guard fails falls through to the final `return False`. -/
def check_timing_conditions (td : TimingDefinition) (current_time : Int)
    (amm_config : AMMConfiguration) : Bool :=
  match td.schedule_type with
  | .always => true
  | .span =>
    match td.start_date, td.end_date with
    | some s, some e => decide (s ≤ current_time) && decide (current_time ≤ e)
    | _, _ => false
  | .daily =>
    match td.start_time, td.end_time with
    | some s, some e =>
      decide (s ≤ timeOfDay current_time) && decide (timeOfDay current_time ≤ e)
    | _, _ => false
  | .weekdays =>
    match td.weekdays, td.start_time, td.end_time with
    | some ws, some s, some e =>
      ws.any (fun w => decide ((w : Int) = weekdayOf current_time))
        && decide (s ≤ timeOfDay current_time)
        && decide (timeOfDay current_time ≤ e)
    | _, _, _ => false
  | .interval =>
    match amm_config.last_execution with
    | none => true
    | some last =>
      if 0 < intervalSeconds td then
        decide (intervalSeconds td ≤ current_time - last)
      else
        false

/-- The `find_one({"amm_config_id": ..., "status": "running"})` query of
`AMMScheduler._should_execute_now` (lines 94-97). -/
def hasRunningExecution (execs : List AMMExecution) (cfgId : String) : Bool :=
  execs.any (fun e => decide (e.amm_config_id = cfgId) && decide (e.status = "running"))

/-- `AMMScheduler._should_execute_now` (lines 89-108): skip when an
execution is still running, debounce executions less than 60 seconds
apart, then evaluate the timing definition. -/
def should_execute_now (execs : List AMMExecution) (amm_config : AMMConfiguration)
    (td : TimingDefinition) (current_time : Int) : Bool :=
  if hasRunningExecution execs amm_config.id then
    false
  else
    match amm_config.last_execution with
    | some t =>
      if current_time - t < 60 then false
      else check_timing_conditions td current_time amm_config
    | none => check_timing_conditions td current_time amm_config

/-- `AMMScheduler._execute_amm` (lines 151-227).  A fresh record (status
`"running"`) is inserted first.  `ok` abstracts whether the remainder of
the `try` block succeeds (measurement definition found, XML generated and
saved): on success the record gains the generated order id and the
configuration's `last_execution`/`execution_count` are stamped — the
record's status is never touched; on failure the `except` block marks the
record `"failed"` with `completed_at` and an error message and bumps the
configuration's error counter. -/
def execute_amm (ok : Bool) (execId orderId : String) (now : Int)
    (s : SchedState) : SchedState :=
  let ex : AMMExecution := { id := execId, amm_config_id := s.config.id, started_at := now }
  if ok then
    { executions :=
        { ex with generated_orders := [orderId], measurements_performed := 1 }
          :: s.executions,
      config :=
        { s.config with last_execution := some now,
                        execution_count := s.config.execution_count + 1 } }
  else
    { executions :=
        { ex with status := "failed",
                  error_message := some "execution error",
                  completed_at := some now }
          :: s.executions,
      config :=
        { s.config with error_count := s.config.error_count + 1,
                        last_error := some "execution error" } }

/-- One evaluation tick of `AMMScheduler._check_scheduled_amms` as it
treats a single active configuration (lines 80-84): execute exactly when
`_should_execute_now` allows it. -/
def check_scheduled_tick (td : TimingDefinition) (current_time : Int)
    (ok : Bool) (execId orderId : String) (s : SchedState) : SchedState :=
  if should_execute_now s.executions s.config td current_time then
    execute_amm ok execId orderId current_time s
  else
    s

/-! ## Filename grammar (`xml_processor.py`)

Identifiers and filenames are character lists; `String` literals appear
only via `String.toList` in concrete instances. -/

/-- `order_id.startswith("OR")` in `ArgusXMLProcessor.save_request`. -/
def startsWithOR (l : List Char) : Bool :=
  match l with
  | a :: b :: _ => decide (a = 'O') && decide (b = 'R')
  | _ => false

/-- The filename computed by `ArgusXMLProcessor.save_request` (lines
265-275): split the identifier positionally into prefix (2 characters
when it starts with `"OR"`, otherwise 3), 6-character date part and the
remaining time part, and join them with dashes plus the `-O.xml` suffix. -/
def save_request_filename (order_id : List Char) : List Char :=
  let plen : Nat := if startsWithOR order_id then 2 else 3
  let remaining := order_id.drop plen
  let date_part := remaining.take 6
  let time_part := remaining.drop 6
  order_id.take plen ++ '-' :: date_part ++ '-' :: time_part
    ++ ('-' :: 'O' :: '.' :: 'x' :: 'm' :: 'l' :: [])

/-- Python `str.split('-')`: splits at every dash, keeping empty pieces. -/
def splitDash : List Char → List (List Char)
  | [] => [[]]
  | c :: cs =>
    if c = '-' then [] :: splitDash cs
    else
      match splitDash cs with
      | [] => [c] :: []
      | p :: ps => (c :: p) :: ps

/-- Python `str.replace('-R', '')`: drop every (leftmost-first,
non-overlapping) occurrence of the two-character pattern `-R`. -/
def replaceDashR : List Char → List Char
  | [] => []
  | '-' :: 'R' :: rest => replaceDashR rest
  | c :: rest => c :: replaceDashR rest

/-- The identifier reconstruction of `ArgusXMLProcessor.check_responses`
(lines 299-311): split the filename stem on dashes; with at least four
pieces rejoin prefix, date part and time part, otherwise fall back to
stripping `-R`. -/
def reconstruct_order_id (stem : List Char) : List Char :=
  let parts := splitDash stem
  if 4 ≤ parts.length then
    parts.getD 0 [] ++ parts.getD 1 [] ++ parts.getD 2 []
  else
    replaceDashR stem

/-! ## XML documents

`xml.etree.ElementTree` elements as a rose tree: tag, optional text,
child list. -/

inductive XmlNode where
  | elem (tag : String) (text : Option String) (children : List XmlNode)

def XmlNode.tag : XmlNode → String
  | .elem t _ _ => t

def XmlNode.text : XmlNode → Option String
  | .elem _ tx _ => tx

def XmlNode.children : XmlNode → List XmlNode
  | .elem _ _ cs => cs

/-- `elem.find("TAG")`: first direct child with the given tag. -/
def findChild (tag : String) (n : XmlNode) : Option XmlNode :=
  n.children.find? (fun c => c.tag = tag)

mutual

/-- Search strictly inside a node, all levels, document order. -/
def findDescNode (tag : String) : XmlNode → Option XmlNode
  | .elem _ _ cs => findDescList tag cs

/-- `find(".//TAG")` over a forest: first matching element in document
order, searching all levels. -/
def findDescList (tag : String) : List XmlNode → Option XmlNode
  | [] => none
  | c :: rest =>
    if c.tag = tag then some c
    else
      match findDescNode tag c with
      | some r => some r
      | none => findDescList tag rest

end

/-- `root.find(".//TAG")`: the root itself is excluded. -/
def findDesc (tag : String) (n : XmlNode) : Option XmlNode :=
  findDescList tag n.children

/-- `elem.find(tag)` followed by `.text` (`result["..."] = elem.text`). -/
def childText (tag : String) (n : XmlNode) : Option String :=
  match findChild tag n with
  | some c => c.text
  | none => none

/-- Shorthand for `ET.SubElement(parent, tag).text = value`. -/
def leaf (tag value : String) : XmlNode := .elem tag (some value) []

/-! ## Schema codec, response side (`xml_processor.py`) -/

/-- The error record `{"code": ..., "message": "Error in order execution"}`
built by `ArgusXMLProcessor.parse_response`. -/
structure ParsedError where
  code : String
  message : String
  deriving DecidableEq, Repr

/-- The slice of the `parse_response` result dictionary that the response
handlers read: order identity, type, header state, error record.  (The
GSS/GSP snapshot and `meas_data` sub-parsers add further keys feeding
other collections; they never touch these four.) -/
structure ParseResult where
  order_id : Option String := none
  order_type : Option String := none
  order_state : Option String := none
  error : Option ParsedError := none
  deriving DecidableEq, Repr

/-- Outcome of `ArgusXMLProcessor.parse_response` (lines 336-387): the
`except` branch logs and returns only `{"error": str(e), ...}` — in
particular no `order_id` key — modelled as `failed`. -/
inductive ParseOutcome where
  | ok (r : ParseResult)
  | failed (message : String)
  deriving DecidableEq, Repr

mutual

/-- `elem.findall(".//TAG")` inside a node: every descendant with the
tag, document order, all levels. -/
def findAllDescNode (tag : String) : XmlNode → List XmlNode
  | .elem _ _ cs => findAllDescList tag cs

/-- `findall(".//TAG")` over a forest. -/
def findAllDescList (tag : String) : List XmlNode → List XmlNode
  | [] => []
  | c :: rest =>
    (if c.tag = tag then [c] else [])
      ++ findAllDescNode tag c ++ findAllDescList tag rest

end

/-- Python `float(text)` applied to `elem.text`: `pyFloatOk` says whether
a string parses as a float (`ValueError` otherwise); `float(None)`
raises `TypeError`, so an absent text always fails. -/
def floatTextOk (pyFloatOk : String → Bool) : Option String → Bool
  | some t => pyFloatOk t
  | none => false

/-- Python `or` on two `find` results
(`meas.find("md_lev") or meas.find("md_d_lev")`,
`xml_processor.py` line 633): an `ElementTree` element is falsy when it
has no children, so a childless first element falls through to the
second. -/
def elementOr (a b : Option XmlNode) : Option XmlNode :=
  match a with
  | some e => if e.children.isEmpty then b else some e
  | none => b

/-- Whether one `MONSYS_STRUCTURE` element makes
`_parse_system_state` (lines 389-460) raise: stations with an
`MSS_ST_NAME` child run `float(longitude.text)` / `float(latitude.text)`
whenever `MSS_LONG` / `MSS_LAT` is present, with no guard on the text
(lines 420-421) and no surrounding `try`. -/
def stationParseFails (pyFloatOk : String → Bool) (monsys : XmlNode) : Bool :=
  match findChild "MSS_ST_NAME" monsys with
  | none => false
  | some _ =>
    (match findChild "MSS_LONG" monsys with
     | some lon => !(floatTextOk pyFloatOk lon.text)
     | none => false)
    || (match findChild "MSS_LAT" monsys with
        | some lat => !(floatTextOk pyFloatOk lat.text)
        | none => false)

/-- Whether `_parse_system_state` raises on this document: any station
element fails.  (The first failing `float()` aborts; whether any fails is
the same condition.) -/
def parse_system_state_fails (pyFloatOk : String → Bool) (root : XmlNode) : Bool :=
  (findAllDescNode "MONSYS_STRUCTURE" root).any (stationParseFails pyFloatOk)

/-- Whether one `meas_data` element makes `_parse_measurement_data`
(lines 621-649) raise: unguarded `float()` on the texts of `md_m_freq`,
the level element (`md_lev or md_d_lev`, Python element truthiness) and
`md_dir`, whenever present. -/
def measDataParseFails (pyFloatOk : String → Bool) (meas : XmlNode) : Bool :=
  (match findChild "md_m_freq" meas with
   | some f => !(floatTextOk pyFloatOk f.text)
   | none => false)
  || (match elementOr (findChild "md_lev" meas) (findChild "md_d_lev" meas) with
      | some l => !(floatTextOk pyFloatOk l.text)
      | none => false)
  || (match findChild "md_dir" meas with
      | some b => !(floatTextOk pyFloatOk b.text)
      | none => false)

/-- Whether the `measurement_data` pass of `parse_response` (lines
371-373) raises: some `.//meas_data` element fails. -/
def parse_measurement_data_fails (pyFloatOk : String → Bool) (root : XmlNode) : Bool :=
  (findAllDescNode "meas_data" root).any (measDataParseFails pyFloatOk)

/-- `ArgusXMLProcessor.parse_response`: the `doc` argument is the outcome
of `ET.parse` on the response file (`Except.error` when the file does not
decode); `pyFloatOk` is Python's `float()` on a string (`true` iff it
parses).  Field extraction is best-effort: a missing `ORDER_DEF` or a
missing inner element yields an absent value.  But the body of the `try`
is not exception-free: for a `GSS` response `_parse_system_state` runs
with no inner `try` and its unguarded `float()` calls can raise, and the
unconditional `meas_data` pass can raise in `_parse_measurement_data`;
either exception reaches the outer `except`, which discards every
extracted field and returns only the error dictionary (`failed`).
(`_parse_system_parameters` for `GSP` has its own `try`/`except` and
cannot propagate.)  The `ACD_ERR` element produces an error record only
for a value other than the success sentinels `""`, `"S"`, `"Success"` or
an absent text.  The GSS/GSP snapshot fields and decoded measurement
lists feed other collections and are not carried in `ParseResult`. -/
def parse_response (pyFloatOk : String → Bool)
    (doc : Except String XmlNode) : ParseOutcome :=
  match doc with
  | .error e => .failed e
  | .ok root =>
    let order_def := findDesc "ORDER_DEF" root
    let order_type := order_def.bind (childText "ORDER_TYPE")
    if decide (order_type = some "GSS") && parse_system_state_fails pyFloatOk root then
      .failed "could not convert string to float"
    else if parse_measurement_data_fails pyFloatOk root then
      .failed "could not convert string to float"
    else
      .ok
        { order_id := order_def.bind (childText "ORDER_ID"),
          order_type := order_type,
          order_state := order_def.bind (childText "ORDER_STATE"),
          error :=
            match (findDesc "ACD_ERR" root).bind XmlNode.text with
            | none => none
            | some t =>
              if t = "" ∨ t = "S" ∨ t = "Success" then none
              else some { code := t, message := "Error in order execution" } }

/-! ## File-drop transport, response handling (`file_watcher.py`) -/

/-- `ArgusOrder` (`models.py` lines 70-85) restricted to the fields
`ArgusResponseHandler._process_response` reads or writes; `error_message`
is the Order's error field.  `response_received_at` and `updated_at` are
the extra keys the Mongo `$set` adds. -/
structure OrderRec where
  order_id : String
  order_state : String
  error_message : Option String := none
  xml_response_file : Option String := none
  response_received_at : Option Int := none
  updated_at : Option Int := none
  deriving DecidableEq, Repr

/-- The `update_one({"order_id": oid}, {"$set": {...}})` of
`ArgusResponseHandler._process_response` (lines 95-103): update the first
matching order with the new state, response file path and timestamps —
and nothing else. -/
def updateOrderOnResponse (oid newState fpath : String) (now : Int) :
    List OrderRec → List OrderRec
  | [] => []
  | o :: os =>
    if o.order_id = oid then
      { o with order_state := newState,
               xml_response_file := some fpath,
               response_received_at := some now,
               updated_at := some now } :: os
    else
      o :: updateOrderOnResponse oid newState fpath now os

/-- Observable outcome of one `_process_response` call. -/
structure ProcessEffect where
  orders : List OrderRec
  file_removed_from_outbox : Bool
  error_logged : Bool
  deriving DecidableEq, Repr

/-- `ArgusResponseHandler._process_response` (lines 62-138) after the
parse step.  On a decode failure the error dictionary has no `order_id`,
so the order update is skipped and no type-specific processing runs; the
file is still moved out of the outbox at the end.  On success the order
matching the parsed `order_id` gets its state set to
`order_state or "Finished"` (Python truthiness: an absent or empty header
state falls back to `"Finished"`).  The type-specific sub-handlers write
only to other collections and are not modelled. -/
def process_response (po : ParseOutcome) (now : Int) (fpath : String)
    (orders : List OrderRec) : ProcessEffect :=
  match po with
  | .failed _ =>
    { orders := orders, file_removed_from_outbox := true, error_logged := true }
  | .ok r =>
    let orders' :=
      match r.order_id with
      | some oid =>
        let st :=
          match r.order_state with
          | some s => if s = "" then "Finished" else s
          | none => "Finished"
        updateOrderOnResponse oid st fpath now orders
      | none => orders
    { orders := orders', file_removed_from_outbox := true, error_logged := false }

/-! ## Schema codec, request side (`xml_processor.py`) -/

/-- `ArgusXMLProcessor.create_system_state_request` (lines 40-58): the
GSS request document. -/
def create_system_state_request (order_id sender sender_pc : String) : XmlNode :=
  .elem "XMLSchema1" none
    [ .elem "ORDER_DEF" none
        [ leaf "ORDER_ID" order_id,
          leaf "ORDER_TYPE" "GSS",
          leaf "ORDER_NAME" "SystemStateQuery",
          leaf "ORDER_SENDER" sender,
          leaf "ORDER_SENDER_PC" sender_pc,
          leaf "ORDER_STATE" "Open",
          leaf "ORDER_CREATOR" "Extern",
          leaf "EXECUTION_TYPE" "A",
          leaf "ORDER_VER" "200" ] ]

/-- `ArgusXMLProcessor.create_system_params_request` (lines 60-78): the
GSP request document. -/
def create_system_params_request (order_id sender sender_pc : String) : XmlNode :=
  .elem "XMLSchema1" none
    [ .elem "ORDER_DEF" none
        [ leaf "ORDER_ID" order_id,
          leaf "ORDER_TYPE" "GSP",
          leaf "ORDER_NAME" "SystemParametersQuery",
          leaf "ORDER_SENDER" sender,
          leaf "ORDER_SENDER_PC" sender_pc,
          leaf "ORDER_STATE" "Open",
          leaf "ORDER_CREATOR" "Extern",
          leaf "EXECUTION_TYPE" "A",
          leaf "ORDER_VER" "200" ] ]

/-- `ArgusXMLProcessor.create_measurement_order` (lines 80-104 for the
header): the order header element of the OR request document.  The
`SUB_ORDER_DEF` subtree (frequency, receiver, antenna, time, station,
location blocks) is kept as an opaque child here — none of its elements
is an `ORDER_DEF` header field, and the claim under check concerns only
the header. -/
def create_measurement_order (order_id sender sender_pc : String)
    (sub_order : XmlNode) : XmlNode :=
  .elem "XMLSchema1" none
    [ .elem "ORDER_DEF" none
        [ leaf "ORDER_ID" order_id,
          leaf "ORDER_TYPE" "OR",
          leaf "ORDER_NAME" "ORM",
          leaf "ORDER_SENDER" sender,
          leaf "ORDER_SENDER_PC" sender_pc,
          leaf "ORDER_STATE" "In Process",
          leaf "ORDER_CREATOR" "Intern",
          leaf "ORDER_ADDRESSEE" "",
          leaf "ORDER_VER" "300",
          leaf "EXECUTION_TYPE" "A",
          leaf "RES_FILE_COMP" "",
          leaf "ORDER_CANCEL_TYPE" "NO",
          sub_order ] ]

/-- The `ORDER_STATE` header element of a generated request document. -/
def requestOrderState (doc : XmlNode) : Option String :=
  (findDesc "ORDER_DEF" doc).bind (childText "ORDER_STATE")

/-- Concrete test response: header state `Finished`, error code `E100`
in the `ACD_ERR` element. -/
def response_doc_with_error : XmlNode :=
  .elem "XMLSchema1" none
    [ .elem "ORDER_DEF" none
        [ leaf "ORDER_ID" "GSS300925101500123",
          leaf "ORDER_TYPE" "GSS",
          leaf "ORDER_STATE" "Finished" ],
      .elem "ACT_DEF" none [ leaf "ACD_ERR" "E100" ] ]

/-! ## Realtime capture listener
(`udp_listener.py`, `real_time_capture.py`, `orm_adc_client.py`)

Datagram payloads are byte lists (`List Nat`, each entry one byte). -/

/-- The ASCII whitespace removed by Python `bytes.strip()`. -/
def isAsciiSpace (b : Nat) : Bool :=
  decide (b = 32) || decide (b = 9) || decide (b = 10) || decide (b = 13)
    || decide (b = 11) || decide (b = 12)

/-- Python `data.strip()` on bytes. -/
def stripBytes (data : List Nat) : List Nat :=
  ((data.dropWhile isAsciiSpace).reverse.dropWhile isAsciiSpace).reverse

/-- `data.strip().startswith(b'<?xml')` from `UDPListener._parse_data`.
`[60, 63, 120, 109, 108]` are the bytes of `<?xml`. -/
def startsWithXmlProlog (data : List Nat) : Bool :=
  decide ((stripBytes data).take 5 = [60, 63, 120, 109, 108])

/-- Big-endian byte concatenation: the raw bit pattern of
`struct.unpack('>I' / '>d' / '>f' / '>h', ...)`.  IEEE-754 value decoding
is outside the model; fields hold the bit patterns. -/
def beNat (bs : List Nat) : Nat := bs.foldl (fun acc b => acc * 256 + b) 0

/-- 16-bit big-endian signed value (`struct.unpack('>h', ...)`). -/
def toI16 (n : Nat) : Int := if n < 32768 then (n : Int) else (n : Int) - 65536

/-- The dictionaries the packet parsers produce.  Constructors keep the
exact key sets of the source: `UDPListener._parse_xml_data` tags its dict
`'type': 'xml'` (also on a parse error); `UDPListener._parse_binary_data`
tags `'type': 'binary'`; `UDPDataParser.parse_spectrum_data` has *no*
`type` key; `UDPDataParser.parse_if_data` tags `'type': 'IF_DATA'`. -/
inductive ParsedData where
  | xml (order_id command status : Option String) (parse_error : Option String)
  | binary (packet_type freq_start_bits freq_step_bits : Nat) (num_points : Nat)
      (levels_bits : List Nat)
  | spectrum (packet_type data_length freq_start_bits freq_step_bits : Nat)
      (num_points : Nat) (levels_bits : List Nat)
  | ifData (num_samples : Nat) (i_samples q_samples : List Int)
  deriving DecidableEq, Repr

/-- `parsed_data.get('type')`: the `type` key of each parser dictionary. -/
def ParsedData.typeKey : ParsedData → Option String
  | .xml _ _ _ _ => some "xml"
  | .binary _ _ _ _ _ => some "binary"
  | .spectrum _ _ _ _ _ _ => none
  | .ifData _ _ _ => some "IF_DATA"

/-- The level-sample loop of `UDPListener._parse_binary_data` (lines
263-273): at most `min num_points 10000` four-byte samples starting at
offset 28, stopping at the end of the payload.  (The source `break`s at
the first short read; since a short read at index `i` is short at every
larger index too, collecting the successful reads is the same list.) -/
def readLevelSamples (data : List Nat) (num_points : Nat) : List Nat :=
  (List.range (min num_points 10000)).filterMap (fun i =>
    if 28 + i * 4 + 4 ≤ data.length then
      some (beNat ((data.drop (28 + i * 4)).take 4))
    else none)

/-- `UDPListener._parse_binary_data` (lines 237-287): payloads shorter
than the 28-byte minimum header give `None`; otherwise the big-endian
header is read and the dict is tagged `'type': 'binary'` with
`num_points` set to the number of samples actually read. -/
def parse_binary_data (data : List Nat) : Option ParsedData :=
  if data.length < 28 then none
  else
    let levels := readLevelSamples data (beNat ((data.drop 24).take 4))
    some (.binary (beNat (data.take 4))
      (beNat ((data.drop 8).take 8))
      (beNat ((data.drop 16).take 8))
      levels.length levels)

/-- `UDPListener._parse_xml_data` (lines 194-235): best-effort XML
decode, parameterized by the outcome of `ET.fromstring` on the payload;
the `except` branch still returns a dict tagged `'type': 'xml'` carrying
the error text. -/
def parse_xml_data (xmlDecode : List Nat → Except String XmlNode)
    (data : List Nat) : ParsedData :=
  match xmlDecode data with
  | .error e => .xml none none none (some e)
  | .ok root =>
    let header := findDesc "HEADER" root
    .xml (header.bind (childText "ID")) (header.bind (childText "CMD"))
      (header.bind (childText "STATUS")) none

/-- `UDPListener._parse_data` (lines 175-192): payloads that start (after
strip) with the XML prologue go to the XML parser, everything else to the
binary parser. -/
def parse_data (xmlDecode : List Nat → Except String XmlNode)
    (data : List Nat) : Option ParsedData :=
  if startsWithXmlProlog data then some (parse_xml_data xmlDecode data)
  else parse_binary_data data

/-- `UDPDataParser.parse_spectrum_data` (`orm_adc_client.py` lines
321-368): same 28-byte header check, but `num_points` keeps the header
count, `data_length` is read, and the sample loop has no 10000-sample
limit and no `break` (short reads are skipped). -/
def parse_spectrum_data (data : List Nat) : Option ParsedData :=
  if data.length < 28 then none
  else
    some (.spectrum (beNat (data.take 4))
      (beNat ((data.drop 4).take 4))
      (beNat ((data.drop 8).take 8))
      (beNat ((data.drop 16).take 8))
      (beNat ((data.drop 24).take 4))
      ((List.range (beNat ((data.drop 24).take 4))).filterMap (fun i =>
        if 28 + i * 4 + 4 ≤ data.length then
          some (beNat ((data.drop (28 + i * 4)).take 4))
        else none)))

/-- `UDPDataParser.parse_if_data` (`orm_adc_client.py` lines 370-405):
interprets the payload as alternating 16-bit signed I/Q pairs
(`len(data) // 4` of them) and always returns a dict tagged
`'type': 'IF_DATA'` — for every payload, including one shorter than a
single pair (then with zero samples).  The output slices are limited to
1000 samples, `num_samples` counts the unsliced list. -/
def parse_if_data (data : List Nat) : ParsedData :=
  let pairs := (List.range (data.length / 4)).filterMap (fun idx =>
    if idx * 4 + 4 ≤ data.length then
      some (toI16 (beNat ((data.drop (idx * 4)).take 2)),
            toI16 (beNat ((data.drop (idx * 4 + 2)).take 2)))
    else none)
  .ifData pairs.length ((pairs.map Prod.fst).take 1000)
    ((pairs.map Prod.snd).take 1000)

/-- The capture metadata document, restricted to the classification
fields.  `UDPListener._store_capture` (lines 294-322) and
`CaptureHandler._store_capture_metadata` (`real_time_capture.py` lines
129-158) both compute `'parsed': parsed_data is not None` and
`'data_type': parsed_data.get('type') if parsed_data else 'unknown'`. -/
structure CaptureDoc where
  size_bytes : Nat
  raw_file : String
  parsed : Bool
  data_type : Option String
  deriving DecidableEq, Repr

def captureMetadataDoc (size : Nat) (raw_file : String)
    (parsed_data : Option ParsedData) : CaptureDoc :=
  { size_bytes := size, raw_file := raw_file,
    parsed := parsed_data.isSome,
    data_type :=
      match parsed_data with
      | some p => p.typeKey
      | none => some "unknown" }

/-- The externally visible steps of packet processing, in the order the
handler performs them. -/
inductive CaptureAction where
  | saveRaw
  | parseAttempt
  | storeMeta
  | notifySubscribers
  deriving DecidableEq, Repr

/-- Filesystem, record store and step trace threaded through a packet
handler. -/
structure CaptureWorld where
  files : List (String × List Nat)
  docs : List CaptureDoc
  events : List CaptureAction
  deriving DecidableEq, Repr

/-- `_save_raw_data` (`udp_listener.py` lines 149-173,
`real_time_capture.py` lines 97-127): write the raw payload under the
date-partitioned path and record the step. -/
def save_raw_data (data : List Nat) (path : String)
    (w : CaptureWorld) : CaptureWorld :=
  { w with files := w.files ++ [(path, data)],
           events := w.events ++ [.saveRaw] }

/-- A parse call, recorded in the trace; the value is the parser's. -/
def trackParse (r : Option ParsedData) (w : CaptureWorld) :
    CaptureWorld × Option ParsedData :=
  ({ w with events := w.events ++ [.parseAttempt] }, r)

/-- `UDPListener._process_packet` (lines 104-147): save raw bytes under
`UDP_CAPTURE_PATH/<date>/<file>`, *then* try to parse, then (with a
database) store the metadata document, then (with a callback) notify. -/
def process_packet (xmlDecode : List Nat → Except String XmlNode)
    (data : List Nat) (dateDir fname : String) (hasDb hasCallback : Bool)
    (w : CaptureWorld) : CaptureWorld :=
  let path := dateDir ++ "/" ++ fname
  let w1 := save_raw_data data path w
  let (w2, parsed) := trackParse (parse_data xmlDecode data) w1
  let w3 :=
    if hasDb then
      { w2 with docs := w2.docs ++ [captureMetadataDoc data.length path parsed],
                events := w2.events ++ [.storeMeta] }
    else w2
  if hasCallback then
    { w3 with events := w3.events ++ [.notifySubscribers] }
  else w3

/-- `CaptureHandler.handle_udp_data` (`real_time_capture.py` lines
40-95): try the spectrum parser, fall back to the I/Q parser, *then*
save the raw bytes under `CAPTURE_BASE_PATH/<date>/<source>/<file>`,
then store metadata, then broadcast.  `parsed_spectrum or parsed_if`
keeps the spectrum dict when present (both dicts are non-empty, hence
truthy). -/
def handle_udp_data (data : List Nat) (dateDir sourceDir fname : String)
    (w : CaptureWorld) : CaptureWorld :=
  let (w1, parsed_spectrum) := trackParse (parse_spectrum_data data) w
  let (w2, parsed_if) : CaptureWorld × Option ParsedData :=
    match parsed_spectrum with
    | none =>
      let (w1', r) := trackParse (some (parse_if_data data)) w1
      (w1', r)
    | some _ => (w1, none)
  let parsed_data := parsed_spectrum <|> parsed_if
  let path := dateDir ++ "/" ++ sourceDir ++ "/" ++ fname
  let w3 := save_raw_data data path w2
  let w4 :=
    { w3 with docs := w3.docs ++ [captureMetadataDoc data.length path parsed_data],
              events := w3.events ++ [CaptureAction.storeMeta] }
  { w4 with events := w4.events ++ [CaptureAction.notifySubscribers] }

/-! ## Retention manager (`real_time_capture.py`) -/

/-- One entry of `CAPTURE_BASE_PATH.iterdir()`.  `date_day` is the result
of `datetime.strptime(name, "%Y-%m-%d")` as a day index (the parsed
instant is midnight, `date_day * 86400` seconds); `none` when the name is
not a date (`ValueError` → skip). -/
structure CaptureDirEntry where
  is_dir : Bool
  date_day : Option Int
  deriving DecidableEq, Repr

/-- The capture storage the retention sweep touches: the date directories
on disk and the `captures_raw` row timestamps (ISO timestamps compare
like instants for a fixed format). -/
structure CaptureStore where
  dirs : List CaptureDirEntry
  record_timestamps : List Int
  deriving DecidableEq, Repr

/-- `CAPTURE_RETENTION_DAYS = 10`. -/
def CAPTURE_RETENTION_DAYS : Int := 10

/-- The per-directory decision of `cleanup_old_captures`: non-directories
and non-date names are skipped (kept); a date directory is removed
(`shutil.rmtree`) exactly when its midnight instant is before the
cutoff. -/
def keepDirInSweep (cutoff : Int) (e : CaptureDirEntry) : Bool :=
  if e.is_dir then
    match e.date_day with
    | some d => !(decide (d * 86400 < cutoff))
    | none => true
  else true

/-- `CaptureHandler.cleanup_old_captures` (lines 200-251): with
`cutoff = now - CAPTURE_RETENTION_DAYS days`, delete every date
directory older than the cutoff and `delete_many` the record rows with
`timestamp < cutoff`. -/
def cleanup_old_captures (now : Int) (s : CaptureStore) : CaptureStore :=
  let cutoff := now - CAPTURE_RETENTION_DAYS * 86400
  { dirs := s.dirs.filter (keepDirInSweep cutoff),
    record_timestamps := s.record_timestamps.filter (fun ts => !(decide (ts < cutoff))) }

end ArgusUI

namespace ArgusUI

/-- C1: while an execution record for the configuration is `running`, an
evaluation tick does not create a new execution record, so two ticks in
that window leave the execution list unchanged — at most one concurrent
execution record per configuration, and here none is added at all. -/
theorem c1_at_most_one_concurrent (s : SchedState) (td : TimingDefinition)
    (now1 now2 : Int) (ok1 ok2 : Bool) (e1 o1 e2 o2 : String)
    (h : hasRunningExecution s.executions s.config.id = true) :
    check_scheduled_tick td now1 ok1 e1 o1 s = s ∧
    check_scheduled_tick td now2 ok2 e2 o2 (check_scheduled_tick td now1 ok1 e1 o1 s) = s ∧
    (check_scheduled_tick td now2 ok2 e2 o2
      (check_scheduled_tick td now1 ok1 e1 o1 s)).executions.length
      = s.executions.length := by
  have h1 : check_scheduled_tick td now1 ok1 e1 o1 s = s := by
    unfold check_scheduled_tick should_execute_now
    simp [h]
  have h2 : check_scheduled_tick td now2 ok2 e2 o2 s = s := by
    unfold check_scheduled_tick should_execute_now
    simp [h]
  refine ⟨h1, ?_, ?_⟩ <;> rw [h1, h2]

/-- Closed instance of `c1_at_most_one_concurrent`: a configuration with a
running execution record is skipped by both ticks. -/
theorem c1_at_most_one_concurrent_witness :
    hasRunningExecution
      [{ id := "E1", amm_config_id := "cfg1", started_at := 0 }] "cfg1" = true ∧
    check_scheduled_tick { schedule_type := .always } 120 true "E2" "O2"
      { executions := [{ id := "E1", amm_config_id := "cfg1", started_at := 0 }],
        config := { id := "cfg1" } }
      = { executions := [{ id := "E1", amm_config_id := "cfg1", started_at := 0 }],
          config := { id := "cfg1" } } :=
  ⟨by decide,
   (c1_at_most_one_concurrent
      { executions := [{ id := "E1", amm_config_id := "cfg1", started_at := 0 }],
        config := { id := "cfg1" } }
      { schedule_type := .always } 120 180 true true "E2" "O2" "E3" "O3"
      (by decide)).1⟩

/-- C2: on the success path `_execute_amm` never finalizes the record it
inserted — the record keeps status `"running"` with no completion time
(only the failure path marks `"failed"` and sets `completed_at`) — and
therefore the configuration is ineligible at every later evaluation tick:
the already-running check always finds that record. -/
theorem c2_success_path_never_finalized (s : SchedState) (now : Int)
    (e o : String) :
    ((execute_amm true e o now s).executions =
        { id := e, amm_config_id := s.config.id, started_at := now,
          generated_orders := [o], measurements_performed := 1 } :: s.executions ∧
      (∀ ex ∈ (execute_amm true e o now s).executions.take 1,
        ex.status = "running" ∧ ex.completed_at = none)) ∧
    (∀ td : TimingDefinition, ∀ later : Int,
      should_execute_now (execute_amm true e o now s).executions
        (execute_amm true e o now s).config td later = false) ∧
    ((execute_amm false e o now s).executions.take 1).all
      (fun ex => decide (ex.status = "failed") && decide (ex.completed_at = some now)) = true := by
  refine ⟨⟨rfl, ?_⟩, ?_, ?_⟩
  · intro ex hex
    simp [execute_amm] at hex
    simp [hex]
  · intro td later
    have hrun : hasRunningExecution (execute_amm true e o now s).executions
        (execute_amm true e o now s).config.id = true := by
      simp [execute_amm, hasRunningExecution]
    unfold should_execute_now
    simp [hrun]
  · simp [execute_amm]

/-- C3 as stated is refuted by an interval timing definition whose summed
interval is zero: the spec's rule would make the configuration eligible
(elapsed time 100 ≥ interval 0), but the code's `interval_seconds > 0`
guard falls through to `return False`. -/
theorem c3_counterexample :
    check_timing_conditions { schedule_type := .interval } 100
        { id := "cfg1", last_execution := some 0 } = false ∧
    intervalSeconds { schedule_type := .interval } ≤ 100 - 0 := by
  refine ⟨rfl, by decide⟩

/-- C3 amended: for an `interval` timing definition whose summed interval
(minutes+hours+days, in seconds) is positive, the configuration is
timing-eligible when no prior execution exists, and after an execution it
is eligible exactly when the elapsed time since the last execution has
reached the interval. -/
theorem c3_interval_eligibility (td : TimingDefinition)
    (cfg : AMMConfiguration) (now : Int)
    (hty : td.schedule_type = ScheduleType.interval)
    (hpos : 0 < intervalSeconds td) :
    (cfg.last_execution = none → check_timing_conditions td now cfg = true) ∧
    (∀ t : Int, cfg.last_execution = some t →
      (check_timing_conditions td now cfg = true ↔ intervalSeconds td ≤ now - t)) := by
  constructor
  · intro hnone
    unfold check_timing_conditions
    rw [hty, hnone]
  · intro t ht
    unfold check_timing_conditions
    rw [hty, ht]
    simp [hpos]

/-- Closed instance of `c3_interval_eligibility`: a one-minute interval
definition, last execution at instant 0, evaluated at instant 100. -/
theorem c3_interval_eligibility_witness :
    ({ schedule_type := .interval, interval_minutes := some 1 }
        : TimingDefinition).schedule_type = ScheduleType.interval ∧
    0 < intervalSeconds { schedule_type := .interval, interval_minutes := some 1 } ∧
    ((({ id := "cfg1", last_execution := some 0 } : AMMConfiguration).last_execution = none →
        check_timing_conditions { schedule_type := .interval, interval_minutes := some 1 } 100
          { id := "cfg1", last_execution := some 0 } = true) ∧
      (∀ t : Int,
        ({ id := "cfg1", last_execution := some 0 } : AMMConfiguration).last_execution = some t →
        (check_timing_conditions { schedule_type := .interval, interval_minutes := some 1 } 100
            { id := "cfg1", last_execution := some 0 } = true ↔
          intervalSeconds { schedule_type := .interval, interval_minutes := some 1 } ≤ 100 - t))) :=
  ⟨rfl, by decide,
   c3_interval_eligibility
     { schedule_type := .interval, interval_minutes := some 1 }
     { id := "cfg1", last_execution := some 0 } 100 rfl (by decide)⟩

theorem splitDash_of_not_mem (xs : List Char) (h : '-' ∉ xs) :
    splitDash xs = [xs] := by
  induction xs with
  | nil => rfl
  | cons c cs ih =>
    have hc : ¬(c = '-') := fun hc => h (hc ▸ List.mem_cons_self c cs)
    have hcs : '-' ∉ cs := fun hm => h (List.mem_cons_of_mem c hm)
    simp [splitDash, hc, ih hcs]

theorem splitDash_append (xs ys : List Char) (h : '-' ∉ xs) :
    splitDash (xs ++ '-' :: ys) = xs :: splitDash ys := by
  induction xs with
  | nil => simp [splitDash]
  | cons c cs ih =>
    have hc : ¬(c = '-') := fun hc => h (hc ▸ List.mem_cons_self c cs)
    have hcs : '-' ∉ cs := fun hm => h (List.mem_cons_of_mem c hm)
    simp [splitDash, hc, ih hcs]

theorem not_dash_mem_of_digits (l : List Char) (h : ∀ c ∈ l, c.isDigit) :
    '-' ∉ l := fun hm => by
  have := h '-' hm
  simp [Char.isDigit] at this

/-- C4 as stated is refuted by the `DF` direction-finding prefix used by
the repository (`location_api.py`): the positional split of `save_request`
always takes three characters for a prefix not starting with `"OR"`, so
the written filename misaligns prefix and date for a two-character
prefix.  (The identifier itself still survives the filename round trip.) -/
theorem c4_counterexample :
    save_request_filename "DF251012101500123".toList
        = "DF2-510121-01500123-O.xml".toList ∧
    save_request_filename "DF251012101500123".toList
        ≠ "DF-251012-101500123-O.xml".toList := by
  constructor
  · decide
  · decide

/-- C4 amended: for every identifier whose prefix is `"OR"` or any other
dash-free three-character prefix not starting with `"OR"`, followed by
six date digits and nine time digits, `save_request` writes the filename
`PREFIX-<date6>-<time9>-O.xml`, and reconstructing the identifier from
the corresponding response filename stem `PREFIX-<date6>-<time9>-R`
(dashes and direction suffix stripped, prefix, date and time rejoined)
yields the identical identifier. -/
theorem c4_identifier_roundtrip (pfx date time : List Char)
    (hOR : startsWithOR pfx = true → pfx.length = 2)
    (hnOR : startsWithOR pfx = false → pfx.length = 3)
    (hpd : '-' ∉ pfx)
    (hd6 : date.length = 6) (hddig : ∀ c ∈ date, c.isDigit)
    (_ht9 : time.length = 9) (htdig : ∀ c ∈ time, c.isDigit) :
    save_request_filename (pfx ++ date ++ time)
      = pfx ++ '-' :: date ++ '-' :: time
          ++ ('-' :: 'O' :: '.' :: 'x' :: 'm' :: 'l' :: []) ∧
    reconstruct_order_id (pfx ++ '-' :: date ++ '-' :: time ++ ('-' :: 'R' :: []))
      = pfx ++ date ++ time := by
  have hlen2 : 2 ≤ pfx.length := by
    by_cases hb : startsWithOR pfx = true
    · simp [hOR hb]
    · rw [hnOR (by simpa using hb)]; omega
  have hsw : startsWithOR (pfx ++ (date ++ time)) = startsWithOR pfx := by
    match pfx, hlen2 with
    | a :: b :: t, _ => simp [startsWithOR]
  have hplen : (if startsWithOR (pfx ++ (date ++ time)) then 2 else 3) = pfx.length := by
    rw [hsw]
    by_cases hb : startsWithOR pfx = true
    · simp [hb, hOR hb]
    · simp [hb, hnOR (by simpa using hb)]
  constructor
  · have hassoc : pfx ++ date ++ time = pfx ++ (date ++ time) := by simp
    rw [hassoc]
    simp only [save_request_filename]
    rw [hplen, List.take_left, List.drop_left,
      List.take_left' hd6, List.drop_left' hd6]
  · simp only [reconstruct_order_id]
    have hnd : '-' ∉ date := not_dash_mem_of_digits date hddig
    have hnt : '-' ∉ time := not_dash_mem_of_digits time htdig
    have hsplit :
        splitDash (pfx ++ '-' :: date ++ '-' :: time ++ ('-' :: 'R' :: []))
          = [pfx, date, time, ['R']] := by
      have : pfx ++ '-' :: date ++ '-' :: time ++ ('-' :: 'R' :: [])
          = pfx ++ '-' :: (date ++ '-' :: (time ++ '-' :: (['R'] : List Char))) := by
        simp
      rw [this, splitDash_append _ _ hpd, splitDash_append _ _ hnd,
        splitDash_append _ _ hnt, splitDash_of_not_mem ['R'] (by decide)]
    rw [hsplit]
    simp

/-- Closed instance of `c4_identifier_roundtrip` at the spec's example:
`GSS-300925-101500123-R` reconstructs to `GSS300925101500123`. -/
theorem c4_identifier_roundtrip_witness :
    ((startsWithOR "GSS".toList = true → ("GSS".toList).length = 2) ∧
      (startsWithOR "GSS".toList = false → ("GSS".toList).length = 3) ∧
      '-' ∉ "GSS".toList ∧
      ("300925".toList).length = 6 ∧ (∀ c ∈ "300925".toList, c.isDigit) ∧
      ("101500123".toList).length = 9 ∧ (∀ c ∈ "101500123".toList, c.isDigit)) ∧
    (save_request_filename ("GSS".toList ++ "300925".toList ++ "101500123".toList)
        = "GSS".toList ++ '-' :: "300925".toList ++ '-' :: "101500123".toList
            ++ ('-' :: 'O' :: '.' :: 'x' :: 'm' :: 'l' :: []) ∧
      reconstruct_order_id
          ("GSS".toList ++ '-' :: "300925".toList ++ '-' :: "101500123".toList
            ++ ('-' :: 'R' :: []))
        = "GSS".toList ++ "300925".toList ++ "101500123".toList) :=
  ⟨⟨by decide, by decide, by decide, by decide, by decide, by decide, by decide⟩,
   c4_identifier_roundtrip "GSS".toList "300925".toList "101500123".toList
     (by decide) (by decide) (by decide) (by decide) (by decide) (by decide) (by decide)⟩

/-- C5: when decoding a response file fails, `parse_response` returns only
the error dictionary (no order identifier), so `_process_response` skips
the order update entirely — every Order keeps every field of its prior
state — while the error is logged and the file is still moved out of the
outbox (consumed exactly as on success). -/
theorem c5_decode_failure_leaves_order (pyFloatOk : String → Bool)
    (e fpath : String) (now : Int) (orders : List OrderRec) :
    process_response (parse_response pyFloatOk (.error e)) now fpath orders
      = { orders := orders, file_removed_from_outbox := true,
          error_logged := true } := rfl

/-- The same consumed-but-untouched behaviour for the decode failures
that arise inside the `try` body itself: when a measurement sub-parser
`float()` raises, the outer `except` discards the extracted fields and
the watcher again updates nothing while still removing the file. -/
theorem internal_decode_failure_leaves_order (pyFloatOk : String → Bool)
    (root : XmlNode) (fpath : String) (now : Int) (orders : List OrderRec)
    (hfail : parse_measurement_data_fails pyFloatOk root = true) :
    process_response (parse_response pyFloatOk (.ok root)) now fpath orders
      = { orders := orders, file_removed_from_outbox := true,
          error_logged := true } := by
  simp only [parse_response]
  cases hgss : decide ((findDesc "ORDER_DEF" root).bind (childText "ORDER_TYPE")
      = some "GSS") && parse_system_state_fails pyFloatOk root with
  | false =>
    rw [hfail]
    rfl
  | true => rfl

/-- Closed instance of `internal_decode_failure_leaves_order`: a
response whose `meas_data` frequency text is not a float is consumed with
no order updated, even though its header fields were extractable. -/
theorem internal_decode_failure_witness :
    parse_measurement_data_fails (fun _ => false)
        (XmlNode.elem "XMLSchema1" none
          [ XmlNode.elem "ORDER_DEF" none [ leaf "ORDER_ID" "OR210914162855677" ],
            XmlNode.elem "meas_data" none [ leaf "md_m_freq" "not-a-number" ] ])
      = true ∧
    process_response
        (parse_response (fun _ => false)
          (.ok (XmlNode.elem "XMLSchema1" none
            [ XmlNode.elem "ORDER_DEF" none [ leaf "ORDER_ID" "OR210914162855677" ],
              XmlNode.elem "meas_data" none [ leaf "md_m_freq" "not-a-number" ] ])))
        1000 "f.xml"
        [ { order_id := "OR210914162855677", order_state := "Open" } ]
      = { orders := [ { order_id := "OR210914162855677", order_state := "Open" } ],
          file_removed_from_outbox := true, error_logged := true } :=
  ⟨by decide,
   internal_decode_failure_leaves_order (fun _ => false)
     (XmlNode.elem "XMLSchema1" none
       [ XmlNode.elem "ORDER_DEF" none [ leaf "ORDER_ID" "OR210914162855677" ],
         XmlNode.elem "meas_data" none [ leaf "md_m_freq" "not-a-number" ] ])
     "f.xml" 1000
     [ { order_id := "OR210914162855677", order_state := "Open" } ]
     (by decide)⟩

/-- C6 as stated is refuted: a response whose `ACD_ERR` carries the
non-sentinel code `E100` (and which decodes cleanly — it has no station
or measurement elements, so no `float()` runs) yields a decoded error
record, but the watcher's order update writes only state, file path and
timestamps — the matching Order's `error_message` field stays `none`,
unpopulated. -/
theorem c6_counterexample :
    parse_response (fun _ => true) (.ok response_doc_with_error)
      = .ok { order_id := some "GSS300925101500123",
              order_type := some "GSS",
              order_state := some "Finished",
              error := some { code := "E100",
                              message := "Error in order execution" } } ∧
    (process_response
        (parse_response (fun _ => true) (.ok response_doc_with_error)) 1000
        "GSS-300925-101500123-R.xml"
        [ { order_id := "GSS300925101500123", order_state := "Open" } ]).orders
      = [ { order_id := "GSS300925101500123", order_state := "Finished",
            error_message := none,
            xml_response_file := some "GSS-300925-101500123-R.xml",
            response_received_at := some 1000, updated_at := some 1000 } ] :=
  ⟨rfl, rfl⟩

/-- C6 amended: for a response whose header error-code element carries a
value other than the success sentinels *and whose type-specific decode
completes* (the system-state and measurement sub-parsers hit no failing
`float()` — otherwise the whole decode aborts into the consumed-but-
untouched path of C5), the decoded response carries the error record
(code plus fixed message) and the watcher sets the matching Order's state
to the header's (nonempty) `ORDER_STATE` value — but the Order's own
error field is left unchanged, not populated. -/
theorem c6_error_response (pyFloatOk : String → Bool) (root : XmlNode)
    (t oid st : String) (ord : OrderRec) (now : Int) (fpath : String)
    (herr : (findDesc "ACD_ERR" root).bind XmlNode.text = some t)
    (hne : ¬(t = "" ∨ t = "S" ∨ t = "Success"))
    (hoid : (findDesc "ORDER_DEF" root).bind (childText "ORDER_ID") = some oid)
    (hst : (findDesc "ORDER_DEF" root).bind (childText "ORDER_STATE") = some st)
    (hstne : st ≠ "")
    (hmatch : ord.order_id = oid)
    (hsnap : parse_system_state_fails pyFloatOk root = false)
    (hmeas : parse_measurement_data_fails pyFloatOk root = false) :
    parse_response pyFloatOk (.ok root)
      = .ok { order_id := some oid,
              order_type := (findDesc "ORDER_DEF" root).bind (childText "ORDER_TYPE"),
              order_state := some st,
              error := some { code := t, message := "Error in order execution" } } ∧
    (process_response (parse_response pyFloatOk (.ok root)) now fpath [ord]).orders
      = [ { ord with order_state := st, xml_response_file := some fpath,
                     response_received_at := some now, updated_at := some now } ] ∧
    ∀ o ∈ (process_response (parse_response pyFloatOk (.ok root)) now fpath [ord]).orders,
      o.error_message = ord.error_message := by
  have h1 : parse_response pyFloatOk (.ok root)
      = .ok { order_id := some oid,
              order_type := (findDesc "ORDER_DEF" root).bind (childText "ORDER_TYPE"),
              order_state := some st,
              error := some { code := t, message := "Error in order execution" } } := by
    simp [parse_response, hsnap, hmeas, herr, hoid, hst, hne]
  refine ⟨h1, ?_, ?_⟩
  · rw [h1]
    simp [process_response, hstne, updateOrderOnResponse, hmatch]
  · intro o ho
    rw [h1] at ho
    simp [process_response, hstne, updateOrderOnResponse, hmatch] at ho
    simp [ho]

/-- Closed instance of `c6_error_response` at the concrete error
response: the order ends `Finished` with its error field untouched. -/
theorem c6_error_response_witness :
    ((findDesc "ACD_ERR" response_doc_with_error).bind XmlNode.text = some "E100" ∧
      ¬("E100" = "" ∨ "E100" = "S" ∨ "E100" = "Success") ∧
      (findDesc "ORDER_DEF" response_doc_with_error).bind (childText "ORDER_ID")
        = some "GSS300925101500123" ∧
      (findDesc "ORDER_DEF" response_doc_with_error).bind (childText "ORDER_STATE")
        = some "Finished" ∧
      parse_system_state_fails (fun _ => true) response_doc_with_error = false ∧
      parse_measurement_data_fails (fun _ => true) response_doc_with_error = false) ∧
    (process_response
        (parse_response (fun _ => true) (.ok response_doc_with_error)) 1000 "f.xml"
        [ { order_id := "GSS300925101500123", order_state := "Open",
            error_message := some "prior" } ]).orders
      = [ { order_id := "GSS300925101500123", order_state := "Finished",
            error_message := some "prior", xml_response_file := some "f.xml",
            response_received_at := some 1000, updated_at := some 1000 } ] :=
  ⟨⟨rfl, by decide, rfl, rfl, rfl, rfl⟩,
   (c6_error_response (fun _ => true) response_doc_with_error "E100"
      "GSS300925101500123" "Finished"
      { order_id := "GSS300925101500123", order_state := "Open",
        error_message := some "prior" }
      1000 "f.xml" rfl (by decide) rfl rfl (by decide) rfl rfl rfl).2.1⟩

/-- C10 as stated is refuted: the measurement-order builder writes
`ORDER_STATE` as `In Process`, not `Open`. -/
theorem c10_counterexample :
    requestOrderState
        (create_measurement_order "MEAS251012101500123" "HQ4" "SRVARGUS"
          (.elem "SUB_ORDER_DEF" none []))
      = some "In Process" ∧
    requestOrderState
        (create_measurement_order "MEAS251012101500123" "HQ4" "SRVARGUS"
          (.elem "SUB_ORDER_DEF" none []))
      ≠ some "Open" :=
  ⟨rfl, by decide⟩

/-- C10 amended: the state-query and parameter-query request builders
write the initial header state `Open`; the measurement-order builder
writes `In Process`. -/
theorem c10_request_header_states (oid s pc : String) (sub : XmlNode) :
    requestOrderState (create_system_state_request oid s pc) = some "Open" ∧
    requestOrderState (create_system_params_request oid s pc) = some "Open" ∧
    requestOrderState (create_measurement_order oid s pc sub)
      = some "In Process" :=
  ⟨rfl, rfl, rfl⟩

/-- C7 as stated is refuted in the `CaptureHandler.handle_udp_data` path:
a 4-byte payload (shorter than the 28-byte minimum binary header) is not
recorded as unparsed — the spectrum parser declines it, but the I/Q
fallback parses it unconditionally, so the capture record is stored with
`parsed = true` and type `IF_DATA`, not `unknown`. -/
theorem c7_counterexample :
    ((handle_udp_data [0, 0, 0, 0] "2026-10-12" "10_0_0_1" "c1.bin"
        { files := [], docs := [], events := [] }).docs.map
      (fun d => (d.parsed, d.data_type))) = [(true, some "IF_DATA")] ∧
    ([0, 0, 0, 0] : List Nat).length < 28 :=
  ⟨rfl, by decide⟩

/-- C7 amended: in the UDP listener's packet path
(`UDPListener._process_packet`), a payload shorter than the 28-byte
minimum binary header that does not start with the XML prologue parses to
nothing (no fault — the parser returns `None`), and the capture record is
persisted with `parsed = false` and data type `unknown` rather than being
dropped. -/
theorem c7_short_payload_unparsed
    (xmlDecode : List Nat → Except String XmlNode) (data : List Nat)
    (dateDir fname : String) (w : CaptureWorld)
    (hlen : data.length < 28) (hxml : startsWithXmlProlog data = false) :
    parse_data xmlDecode data = none ∧
    (process_packet xmlDecode data dateDir fname true true w).docs
      = w.docs ++ [{ size_bytes := data.length,
                     raw_file := dateDir ++ "/" ++ fname,
                     parsed := false, data_type := some "unknown" }] := by
  have hp : parse_data xmlDecode data = none := by
    simp [parse_data, hxml, parse_binary_data, hlen]
  refine ⟨hp, ?_⟩
  simp [process_packet, trackParse, save_raw_data, hp, captureMetadataDoc]

/-- Closed instance of `c7_short_payload_unparsed` on a one-byte
datagram. -/
theorem c7_short_payload_unparsed_witness :
    (([0] : List Nat).length < 28 ∧ startsWithXmlProlog [0] = false) ∧
    (process_packet (fun _ => Except.error "na") [0] "2026-10-12" "c1.bin"
        true true { files := [], docs := [], events := [] }).docs
      = [] ++ [{ size_bytes := ([0] : List Nat).length,
                 raw_file := "2026-10-12" ++ "/" ++ "c1.bin",
                 parsed := false, data_type := some "unknown" }] :=
  ⟨⟨by decide, by decide⟩,
   (c7_short_payload_unparsed (fun _ => Except.error "na") [0] "2026-10-12"
      "c1.bin" { files := [], docs := [], events := [] }
      (by decide) (by decide)).2⟩

/-- C8 as stated is refuted in the `CaptureHandler.handle_udp_data` path:
its step trace begins with the two parse attempts, and the raw bytes are
saved only afterwards — a parse attempt precedes persistence. -/
theorem c8_counterexample :
    (handle_udp_data [0, 0, 0, 0] "2026-10-12" "10_0_0_1" "c1.bin"
        { files := [], docs := [], events := [] }).events
      = [CaptureAction.parseAttempt, CaptureAction.parseAttempt,
         CaptureAction.saveRaw, CaptureAction.storeMeta,
         CaptureAction.notifySubscribers] ∧
    (handle_udp_data [0, 0, 0, 0] "2026-10-12" "10_0_0_1" "c1.bin"
        { files := [], docs := [], events := [] }).events.indexOf
        CaptureAction.parseAttempt
      < (handle_udp_data [0, 0, 0, 0] "2026-10-12" "10_0_0_1" "c1.bin"
          { files := [], docs := [], events := [] }).events.indexOf
          CaptureAction.saveRaw :=
  ⟨rfl, by decide⟩

/-- C8 amended: in the UDP listener's packet path the raw payload is
persisted to the date-partitioned path strictly before the parse attempt
and regardless of the classification outcome (the trace is save, parse,
then store/notify); in the `CaptureHandler` path the raw payload is still
persisted regardless of outcome, but after the parse attempt. -/
theorem c8_raw_persisted_before_parse
    (xmlDecode : List Nat → Except String XmlNode) (data : List Nat)
    (dateDir srcDir fname : String) (hasDb hasCallback : Bool)
    (w : CaptureWorld) :
    (process_packet xmlDecode data dateDir fname hasDb hasCallback w).events
      = w.events ++ [CaptureAction.saveRaw, CaptureAction.parseAttempt]
          ++ (if hasDb then [CaptureAction.storeMeta] else [])
          ++ (if hasCallback then [CaptureAction.notifySubscribers] else []) ∧
    (dateDir ++ "/" ++ fname, data)
      ∈ (process_packet xmlDecode data dateDir fname hasDb hasCallback w).files ∧
    (dateDir ++ "/" ++ srcDir ++ "/" ++ fname, data)
      ∈ (handle_udp_data data dateDir srcDir fname w).files := by
  refine ⟨?_, ?_, ?_⟩
  · cases hasDb <;> cases hasCallback <;>
      simp [process_packet, trackParse, save_raw_data]
  · cases hasDb <;> cases hasCallback <;>
      simp [process_packet, trackParse, save_raw_data]
  · cases hps : parse_spectrum_data data <;>
      simp [handle_udp_data, trackParse, save_raw_data, hps]

/-- C9: the retention sweep deletes exactly the date directories whose
(midnight) date lies before `now` minus the 10-day retention window,
leaves every date directory within the window untouched, and removes
exactly the record rows with timestamps before the same cutoff. -/
theorem c9_retention_sweep (now : Int) (s : CaptureStore) :
    (∀ e ∈ s.dirs, e.is_dir = true →
      ∀ d : Int, e.date_day = some d →
        (d * 86400 < now - CAPTURE_RETENTION_DAYS * 86400 →
          e ∉ (cleanup_old_captures now s).dirs) ∧
        (now - CAPTURE_RETENTION_DAYS * 86400 ≤ d * 86400 →
          e ∈ (cleanup_old_captures now s).dirs)) ∧
    (∀ ts ∈ s.record_timestamps,
      (ts < now - CAPTURE_RETENTION_DAYS * 86400 →
        ts ∉ (cleanup_old_captures now s).record_timestamps) ∧
      (now - CAPTURE_RETENTION_DAYS * 86400 ≤ ts →
        ts ∈ (cleanup_old_captures now s).record_timestamps)) := by
  constructor
  · intro e he hdir d hd
    constructor
    · intro hold hmem
      rw [cleanup_old_captures, List.mem_filter] at hmem
      simp [keepDirInSweep, hdir, hd, hold] at hmem
    · intro hin
      rw [cleanup_old_captures, List.mem_filter]
      refine ⟨he, ?_⟩
      simp [keepDirInSweep, hdir, hd]
      omega
  · intro ts hts
    constructor
    · intro hold hmem
      rw [cleanup_old_captures, List.mem_filter] at hmem
      simp [hold] at hmem
    · intro hin
      rw [cleanup_old_captures, List.mem_filter]
      refine ⟨hts, ?_⟩
      simp
      omega

/-- Closed instance of `c9_retention_sweep`: at `now` = day 20, the
directory dated day 0 is deleted and the one dated day 15 is kept; the
row at timestamp 0 is deleted and the one at 1700000 is kept. -/
theorem c9_retention_sweep_witness :
    ((⟨true, some 0⟩ : CaptureDirEntry)
        ∈ ({ dirs := [⟨true, some 0⟩, ⟨true, some 15⟩],
             record_timestamps := [0, 1700000] } : CaptureStore).dirs ∧
      ((0 : Int) * 86400 < 1728000 - CAPTURE_RETENTION_DAYS * 86400)) ∧
    (⟨true, some 0⟩ : CaptureDirEntry)
      ∉ (cleanup_old_captures 1728000
          { dirs := [⟨true, some 0⟩, ⟨true, some 15⟩],
            record_timestamps := [0, 1700000] }).dirs ∧
    (⟨true, some 15⟩ : CaptureDirEntry)
      ∈ (cleanup_old_captures 1728000
          { dirs := [⟨true, some 0⟩, ⟨true, some 15⟩],
            record_timestamps := [0, 1700000] }).dirs ∧
    (0 : Int) ∉ (cleanup_old_captures 1728000
          { dirs := [⟨true, some 0⟩, ⟨true, some 15⟩],
            record_timestamps := [0, 1700000] }).record_timestamps ∧
    (1700000 : Int) ∈ (cleanup_old_captures 1728000
          { dirs := [⟨true, some 0⟩, ⟨true, some 15⟩],
            record_timestamps := [0, 1700000] }).record_timestamps :=
  ⟨⟨by decide, by decide⟩,
   ((c9_retention_sweep 1728000
      { dirs := [⟨true, some 0⟩, ⟨true, some 15⟩],
        record_timestamps := [0, 1700000] }).1
     ⟨true, some 0⟩ (by decide) rfl 0 rfl).1 (by decide),
   ((c9_retention_sweep 1728000
      { dirs := [⟨true, some 0⟩, ⟨true, some 15⟩],
        record_timestamps := [0, 1700000] }).1
     ⟨true, some 15⟩ (by decide) rfl 15 rfl).2 (by decide),
   ((c9_retention_sweep 1728000
      { dirs := [⟨true, some 0⟩, ⟨true, some 15⟩],
        record_timestamps := [0, 1700000] }).2
     0 (by decide)).1 (by decide),
   ((c9_retention_sweep 1728000
      { dirs := [⟨true, some 0⟩, ⟨true, some 15⟩],
        record_timestamps := [0, 1700000] }).2
     1700000 (by decide)).2 (by decide)⟩

end ArgusUI
